import Mathlib

/-!
# Verification of the PDF_accessability_UI job-lifecycle backend

Shallow embedding of the eight Lambda handlers under
`src/cdk_backend/lambda/{createJob,analyzePDF,startProcessing,cancelJob,
deleteJob,getJob,getUserJobs,stepFunctionsCallback}/index.py`.

Conventions of the embedding:

* The DynamoDB jobs table is an association list `JobStore` kept in table
  order (needed to model `scan` with `Limit=1`, which in DynamoDB examines
  at most `Limit` items *before* applying the filter expression).
* Timestamps are abstract naturals supplied by the caller (the handlers
  read the wall clock; each distinct `datetime.now()` call site is a
  separate parameter).
* Strings coming in through JSON are modelled as `Option String`, with
  `none` standing for an absent key, a JSON `null`, or a falsy (empty)
  string — the handlers only ever test them for truthiness before use.
* Numeric job metrics that the code stores as DynamoDB numbers/Decimals
  are modelled as `ℚ`.
* External collaborators (S3, the SplitPDF Lambda, Cognito claim
  extraction, PyPDF2 parsing) are modelled as parameters carrying their
  observable outcome; their internals are out of scope per the spec.
* `update_item` is modelled as mutation of the record at the key when
  present and the identity otherwise; every `update_item` issued by these
  handlers follows a successful point lookup or scan hit on the same key,
  so the DynamoDB upsert-on-missing behaviour is unreachable in the
  modelled flows (and the spec's Job Store contract returns NotFound
  there).
-/

/-- Job status values written by the handlers (stored as strings in
DynamoDB; the full set of values occurring in the code). -/
inductive JobStatus where
  | UPLOADED
  | ANALYZING
  | ANALYSIS_COMPLETE
  | PROCESSING
  | COMPLETED
  | FAILED
  | CANCELLED
deriving DecidableEq

/-- Ordered 3-way complexity scale: the string values `'simple'`,
`'moderate'`, `'complex'` assigned in `analyzePDF/index.py`. -/
inductive Complexity where
  | simple
  | moderate
  | complex
deriving DecidableEq

/-- The `processing_metadata` map written by `startProcessing/index.py`
(lines 64–68): a snapshot of the job's source location plus the start
time. -/
structure ProcMeta where
  s3_bucket : Option String
  s3_key : Option String
  started_at : Nat
deriving DecidableEq

/-- One item of the jobs table.  Fields are exactly the DynamoDB
attributes written by the handlers; optional because DynamoDB items are
schemaless and each attribute appears only once some handler has set it.
`status` is total: every record is born through `createJob`'s `put_item`,
which sets it. -/
structure JobRecord where
  user_sub : Option String := none
  status : JobStatus
  file_name : Option String := none
  file_size_mb : Option ℚ := none
  file_size_bytes : Option Nat := none
  s3_key : Option String := none
  s3_bucket : Option String := none
  created_at : Option Nat := none
  updated_at : Option Nat := none
  expires_at : Option Nat := none
  user_email : Option String := none
  num_pages : Option Nat := none
  estimated_elements : Option Nat := none
  estimated_transactions : Option Nat := none
  avg_elements_per_page : Option Nat := none
  complexity : Option Complexity := none
  estimated_cost_percentage : Option ℚ := none
  processing_metadata : Option ProcMeta := none
  processed_s3_key : Option String := none
  error_message : Option String := none
deriving DecidableEq

/-- The jobs table: key/item pairs in table order. -/
abbrev JobStore := List (String × JobRecord)

/-- `table.get_item(Key={'job_id': k})`: point lookup. -/
def getItem : JobStore → String → Option JobRecord
  | [], _ => none
  | (k0, r) :: rest, k => if k0 = k then some r else getItem rest k

/-- `table.update_item(Key=..., UpdateExpression='SET ...')` with no
`ConditionExpression`: apply the attribute mutation to the record at the
key.  (See the module comment for the missing-key case.) -/
def updateItem : JobStore → String → (JobRecord → JobRecord) → JobStore
  | [], _, _ => []
  | (k0, r) :: rest, k, f =>
      if k0 = k then (k0, f r) :: updateItem rest k f
      else (k0, r) :: updateItem rest k f

/-- `table.put_item(Item=...)`: unconditional whole-item write — replaces
the item at the key when present, inserts it otherwise. -/
def putItem : JobStore → String → JobRecord → JobStore
  | [], k, r => [(k, r)]
  | (k0, r0) :: rest, k, r =>
      if k0 = k then (k0, r) :: rest else (k0, r0) :: putItem rest k r

/-- `table.delete_item(Key=...)`: remove the item at the key. -/
def deleteItem : JobStore → String → JobStore
  | [], _ => []
  | (k0, r0) :: rest, k =>
      if k0 = k then deleteItem rest k else (k0, r0) :: deleteItem rest k

/-- `table.scan(FilterExpression=p, Limit=1)`: DynamoDB examines at most
`Limit` items of the table in order and only then applies the filter, so
with `Limit=1` the result is the first item of the table if it satisfies
the filter, and empty otherwise. -/
def scanLimit1 (db : JobStore) (p : JobRecord → Bool) : Option (String × JobRecord) :=
  match db with
  | [] => none
  | kv :: _ => if p kv.2 then some kv else none

/-! ## String helpers used by `stepFunctionsCallback/index.py` -/

/-- Python's `\s` class: the whitespace characters of `re`. -/
def pySpace (c : Char) : Bool :=
  c = ' ' || c = '\t' || c = '\n' || c = '\r' || c = '\x0b' || c = '\x0c'

/-- Drop a (possibly empty) run of `\s*`. -/
def dropSpaces : List Char → List Char
  | [] => []
  | c :: cs => if pySpace c then dropSpaces cs else c :: cs

/-- Greedy `[^\s|]+` capture (may be empty here; emptiness is rejected by
the caller, matching the `+` of the regex). -/
def takeToken (cs : List Char) : List Char :=
  cs.takeWhile (fun c => !(pySpace c) && c != '|')

/-- After the literal `Filename`, match `\s*:\s*([^\s|]+)` and return the
capture. -/
def matchAfterLabel (cs : List Char) : Option (List Char) :=
  match dropSpaces cs with
  | ':' :: rest =>
      let tok := takeToken (dropSpaces rest)
      if tok = [] then none else some tok
  | _ => none

/-- `re.search(r'Filename\s*:\s*([^\s|]+)', s)`: scan left to right for
the first position where the whole pattern matches and return the
capture group. -/
def searchFilename : List Char → Option (List Char)
  | [] => none
  | c :: cs =>
      match (if (c :: cs).take 8 = ['F', 'i', 'l', 'e', 'n', 'a', 'm', 'e'] then
               matchAfterLabel ((c :: cs).drop 8)
             else none) with
      | some tok => some tok
      | none => searchFilename cs

/-- The marker extraction of `stepFunctionsCallback/index.py` line 86. -/
def extractFilename (s : String) : Option String :=
  (searchFilename s.data).map List.asString

/-- `s3_key.split('/')[-1]` (line 45): the segment after the last `/`. -/
def afterLastSlash (cs : List Char) : List Char :=
  cs.foldl (fun acc c => if c = '/' then [] else acc ++ [c]) []

/-- `filename.replace('.pdf', '')` (line 46): remove every non-overlapping
occurrence of `.pdf`, scanning left to right. -/
def stripPdf : List Char → List Char
  | [] => []
  | '.' :: 'p' :: 'd' :: 'f' :: cs => stripPdf cs
  | c :: cs => c :: stripPdf cs

/-- Lines 45–46: the candidate job id derived from an s3 key. -/
def derivedJobId (k : String) : String :=
  (stripPdf (afterLastSlash k.data)).asString

/-! ## Shared numeric helpers -/

/-- `round(x, 2)` of Python, as used on the values arising here.  Python
rounds half to even; every value these handlers round to two decimals
(`estimated_cost_percentage = 0.012·p`, a multiple of `0.004`, and
`file_size_mb = bytes/2^20`, whose double value is never a half-odd
multiple of `0.01`) is tie-free, where half-even and half-up coincide. -/
def round2 (q : ℚ) : ℚ :=
  (⌊q * 100 + 1 / 2⌋ : ℚ) / 100

/-- Terminal statuses, the list literal of `cancelJob/index.py` line 96. -/
def terminalStatuses : List JobStatus :=
  [JobStatus.COMPLETED, JobStatus.FAILED, JobStatus.CANCELLED]

/-! ## `createJob/index.py` (API-gateway branch, lines 52–123)

The S3-event branch differs only in how the request fields are obtained;
the claims concern the record build and `put_item` (lines 87–107), common
to both.  `head_object` (file size) is an external collaborator: its
result is the `file_size_bytes` parameter. -/

/-- Outcome of `createJob`: response status code and the store after the
handler ran. -/
def createJob (db : JobStore) (job_id user_sub user_email file_name s3_key bucket : Option String)
    (pdfBucketEnv : String) (file_size_bytes : Nat) (now : Nat) : Nat × JobStore :=
  match job_id, user_sub, file_name, s3_key with
  | some jid, some u, some fn, some k =>
      let item : JobRecord :=
        { user_sub := some u
          status := JobStatus.UPLOADED
          file_name := some fn
          file_size_mb := some (round2 ((file_size_bytes : ℚ) / 1048576))
          file_size_bytes := some file_size_bytes
          s3_key := some k
          s3_bucket := some (bucket.getD pdfBucketEnv)
          created_at := some now
          updated_at := some now
          expires_at := some (now + 7 * 86400)
          user_email := user_email }
      (200, putItem db jid item)
  | _, _, _, _ => (400, db)

/-! ## `analyzePDF/index.py` (lines 17–156)

S3 download and PyPDF2 parsing are one external step whose observable
outcome is `parsedPages`: `some p` when `len(pdf_reader.pages) = p`, and
`none` when download or parsing raises (the `except` path, lines
130–156, with the exception text `errText`).  `t1` and `t2` are the two
`datetime.utcnow()` call sites (lines 58 and 109/143). -/

/-- `estimated_elements = num_pages * 30` (lines 70–72). -/
def estimated_elements (num_pages : Nat) : Nat :=
  num_pages * 30

/-- `estimated_transactions = estimated_elements // 10` (line 75). -/
def estimated_transactions (num_pages : Nat) : Nat :=
  estimated_elements num_pages / 10

/-- Lines 77–83: complexity bucketed from the page count against the two
fixed thresholds 10 and 50. -/
def complexityOf (num_pages : Nat) : Complexity :=
  if num_pages < 10 then Complexity.simple
  else if num_pages < 50 then Complexity.moderate
  else Complexity.complex

/-- `avg_elements_per_page = 30` (line 71): a constant of the code. -/
def avg_elements_per_page : Nat := 30

/-- Lines 85–87 and the `Decimal(str(round(..., 2)))` stored at line 108:
`(estimated_transactions / 25000) * 100`, rounded to two decimals. -/
def estimatedCostPercentage (num_pages : Nat) : ℚ :=
  round2 (((estimated_transactions num_pages : ℚ) / 25000) * 100)

/-- The metrics mutation written at lines 90–111. -/
def analysisMutation (p t2 : Nat) (r : JobRecord) : JobRecord :=
  { r with
    status := JobStatus.ANALYSIS_COMPLETE
    num_pages := some p
    estimated_elements := some (estimated_elements p)
    estimated_transactions := some (estimated_transactions p)
    avg_elements_per_page := some avg_elements_per_page
    complexity := some (complexityOf p)
    estimated_cost_percentage := some (estimatedCostPercentage p)
    updated_at := some t2 }

/-- The whole `analyzePDF` handler. -/
def analyzePDF (db : JobStore) (job_id : Option String) (parsedPages : Option Nat)
    (errText : String) (t1 t2 : Nat) : Nat × JobStore :=
  match job_id with
  | none => (400, db)
  | some jid =>
      match getItem db jid with
      | none => (404, db)
      | some _ =>
          let db1 := updateItem db jid (fun r =>
            { r with status := JobStatus.ANALYZING, updated_at := some t1 })
          match parsedPages with
          | none =>
              (500, updateItem db1 jid (fun r =>
                { r with status := JobStatus.FAILED, error_message := some errText,
                         updated_at := some t2 }))
          | some p => (200, updateItem db1 jid (analysisMutation p t2))

/-! ## `getJob/index.py` (lines 19–123)

Read-only; the outcome is the response status code.  `user_sub` is the
extracted `claims.get('sub')`. -/

def getJob (db : JobStore) (job_id user_sub : Option String) : Nat :=
  match job_id with
  | none => 400
  | some jid =>
      match user_sub with
      | none => 401
      | some u =>
          match getItem db jid with
          | none => 404
          | some job => if job.user_sub ≠ some u then 403 else 200

/-! ## `deleteJob/index.py` (lines 13–199)

S3 cleanup (lines 110–159) touches only the blob store and is external;
the job-store effect is the `delete_item` at line 162. -/

def deleteJob (db : JobStore) (job_id user_sub : Option String) : Nat × JobStore :=
  match job_id with
  | none => (400, db)
  | some jid =>
      match user_sub with
      | none => (403, db)
      | some u =>
          match getItem db jid with
          | none => (404, db)
          | some job =>
              if job.user_sub ≠ some u then (403, db)
              else (200, deleteItem db jid)

/-! ## `cancelJob/index.py` (lines 11–165)

The handler makes exactly two job-store calls: the `get_item` at line 67
(followed by the purely application-level ownership and terminal-state
checks on that read value) and the unconditional `update_item` at line
112, which carries no `ConditionExpression`.  We factor it accordingly so
that interleavings between the two calls can be expressed. -/

/-- The read phase: lines 30–108.  `Except.error c` is an early response
with status code `c`; `Except.ok jid` means the handler proceeds to its
write with this key. -/
def cancelCheck (db : JobStore) (job_id user_sub : Option String) : Except Nat String :=
  match job_id with
  | none => Except.error 400
  | some jid =>
      match user_sub with
      | none => Except.error 403
      | some u =>
          match getItem db jid with
          | none => Except.error 404
          | some job =>
              if job.user_sub ≠ some u then Except.error 403
              else if job.status ∈ terminalStatuses then Except.error 400
              else Except.ok jid

/-- The write phase: the unconditional `update_item` of lines 112–123. -/
def cancelWrite (db : JobStore) (jid : String) (now : Nat) : JobStore :=
  updateItem db jid (fun r =>
    { r with status := JobStatus.CANCELLED, updated_at := some now })

/-- The handler run without interference between its two store calls.
(The optional `delete_file` S3 cleanup, lines 128–137, touches only the
blob store.) -/
def cancelJob (db : JobStore) (job_id user_sub : Option String) (now : Nat) : Nat × JobStore :=
  match cancelCheck db job_id user_sub with
  | Except.error c => (c, db)
  | Except.ok jid => (200, cancelWrite db jid now)

/-! ## `startProcessing/index.py` (lines 12–151)

`splitConfigured` is whether `SPLIT_PDF_LAMBDA_ARN` is set (line 9);
`invokeOk` is the outcome of the external `lambda_client.invoke` (line
111): on failure the `except` branch writes `FAILED` at time `t2` and
re-raises into the outer handler, producing a 500 (lines 119–132,
145–151). -/

/-- The `PROCESSING` mutation of lines 57–71: note there is no check of
the job's current status anywhere in the handler. -/
def startWrite (db : JobStore) (jid : String) (job : JobRecord) (now : Nat) : JobStore :=
  updateItem db jid (fun r =>
    { r with status := JobStatus.PROCESSING, updated_at := some now,
             processing_metadata := some ⟨job.s3_bucket, job.s3_key, now⟩ })

def startProcessing (db : JobStore) (job_id user_sub : Option String) (now t2 : Nat)
    (splitConfigured invokeOk : Bool) : Nat × JobStore :=
  match job_id with
  | none => (400, db)
  | some jid =>
      match getItem db jid with
      | none => (404, db)
      | some job =>
          -- `if user_sub and job.get('user_sub') != user_sub` (line 48):
          -- a falsy `user_sub` skips the ownership check entirely.
          if user_sub.isSome ∧ job.user_sub ≠ user_sub then (403, db)
          else
            let db1 := startWrite db jid job now
            if splitConfigured ∧ ¬ invokeOk then
              (500, updateItem db1 jid (fun r =>
                { r with status := JobStatus.FAILED,
                         error_message := some "Failed to start processing",
                         updated_at := some t2 }))
            else (200, db1)

/-! ## `stepFunctionsCallback/index.py` (lines 11–142)

The EventBridge event's fields, after the JSON plumbing of lines 20–33:
`status` is `detail.status`; `executionArn` likewise; `input_job_id` and
`input_s3_key` are the values dug out of the execution input (line 32 and
the `chunks`/plain fallback of line 33); `output` models
`detail.get('output')` — `none` is an absent/null output, under which the
membership test `'ParallelResults' in output_data` at line 83 raises and
the handler answers 500 before any store write; `some parallel0` carries
`ParallelResults[0]` when that list is present and non-empty (`some s`)
or a parsed output without usable `ParallelResults` (`none`). -/

structure CallbackEvent where
  status : Option String
  executionArn : Option String
  input_job_id : Option String
  input_s3_key : Option String
  output : Option (Option String)
  cause : Option String

/-- Lines 35–74: job-id resolution.  `Except.error c` is an early response
with status code `c` and no store change. -/
def resolveJobId (db : JobStore) (job_id s3_key : Option String) : Except Nat String :=
  match job_id with
  | some jid => Except.ok jid
  | none =>
      match s3_key with
      | none => Except.error 400
      | some k =>
          let potential := derivedJobId k
          match getItem db potential with
          | some _ => Except.ok potential
          | none =>
              match scanLimit1 db (fun r => r.s3_key == some k) with
              | some (jid, _) => Except.ok jid
              | none => Except.error 404

/-- Lines 82–92: the processed-file key extracted from
`ParallelResults[0]`, when the output is usable and the marker present. -/
def processedFileKey (parallel0 : Option String) : Option String :=
  parallel0.bind (fun s => (extractFilename s).map (fun f => "result/" ++ f))

/-- The `SUCCEEDED` mutation (lines 97–113): status and `updated_at` are
always overwritten; `processed_s3_key` only when a key was extracted. -/
def callbackSuccessMutation (key : Option String) (now : Nat) (r : JobRecord) : JobRecord :=
  { r with
    status := JobStatus.COMPLETED
    updated_at := some now
    processed_s3_key := match key with
      | some k => some k
      | none => r.processed_s3_key }

/-- The `FAILED` mutation (lines 116–128). -/
def callbackFailureMutation (cause : Option String) (now : Nat) (r : JobRecord) : JobRecord :=
  { r with
    status := JobStatus.FAILED
    updated_at := some now
    error_message := some (cause.getD "Step Functions execution failed") }

/-- The write phase of the callback, entered once a job id has been
resolved: lines 78–133.  Neither `update_item` carries a
`ConditionExpression`. -/
def callbackApply (db : JobStore) (jid : String) (ev : CallbackEvent) (now : Nat) :
    Nat × JobStore :=
  match ev.output with
  | none => (500, db)
  | some parallel0 =>
      match ev.status with
      | some "SUCCEEDED" =>
          (200, updateItem db jid (callbackSuccessMutation (processedFileKey parallel0) now))
      | some "FAILED" =>
          (200, updateItem db jid (callbackFailureMutation ev.cause now))
      | _ => (200, db)

/-- The whole callback handler. -/
def sfnCallback (db : JobStore) (ev : CallbackEvent) (now : Nat) : Nat × JobStore :=
  match ev.executionArn with
  | none => (400, db)
  | some _ =>
      match resolveJobId db ev.input_job_id ev.input_s3_key with
      | Except.error c => (c, db)
      | Except.ok jid => callbackApply db jid ev now

/-! ## Interleaved executions

`cancelJob` talks to the store twice (read at line 67, unconditional
write at line 112) with only in-process computation in between, so a
concurrently delivered completion callback can commit between the two.
`cancelRaceCallback` is that interleaving: cancel's read phase against
`db`, then the whole callback, then cancel's write phase against the
callback's store. -/

def cancelRaceCallback (db : JobStore) (job_id user_sub : Option String)
    (ev : CallbackEvent) (tCb tCancel : Nat) : Nat × Nat × JobStore :=
  match cancelCheck db job_id user_sub with
  | Except.error c =>
      let cb := sfnCallback db ev tCb
      (c, cb.1, cb.2)
  | Except.ok jid =>
      let cb := sfnCallback db ev tCb
      (200, cb.1, cancelWrite cb.2 jid tCancel)

/-! ## Concrete fixtures used to instantiate the theorems -/

/-- A job record with key-independent fields fixed: owner `"u"`, source
`pdf/j.pdf` in bucket `"b"`, created at 1, last updated at 5. -/
def sampleJob (st : JobStatus) : JobRecord :=
  { user_sub := some "u", status := st, file_name := some "j.pdf",
    s3_key := some "pdf/j.pdf", s3_bucket := some "b",
    created_at := some 1, updated_at := some 5 }

/-- A one-job table holding `sampleJob st` under key `"j"`. -/
def sampleDb (st : JobStatus) : JobStore := [("j", sampleJob st)]

/-- A completion-success event carrying the job id `jid` in its execution
input, with result text `p0`. -/
def jobSuccessEvent (jid arn p0 : String) : CallbackEvent :=
  { status := some "SUCCEEDED", executionArn := some arn,
    input_job_id := some jid, input_s3_key := none,
    output := some (some p0), cause := none }

/-- A completion-success event carrying no job id, only the source key
`k`, and a parsed output without usable `ParallelResults`. -/
def noIdSuccessEvent (k arn : String) : CallbackEvent :=
  { status := some "SUCCEEDED", executionArn := some arn,
    input_job_id := none, input_s3_key := some k,
    output := some none, cause := none }

/-- A completion-success event for job `"j"` whose result text carries the
`Filename : …` marker. -/
def successEvent : CallbackEvent :=
  jobSuccessEvent "j" "arn:sf:exec" "Filename : COMPLIANT_j.pdf | ok"

/-- A completion-success event for job `"j"` whose result text lacks the
marker. -/
def successEventNoMarker : CallbackEvent :=
  jobSuccessEvent "j" "arn:sf:exec" "Stage finished | ok"

/-- Two distinct PROCESSING jobs sharing the same source key
`pdf/shared.pdf`, under ids (`a1`, `b2`) that the derived-id rule cannot
produce from that key. -/
def dupDb : JobStore :=
  [("a1", { user_sub := some "u", status := JobStatus.PROCESSING,
            s3_key := some "pdf/shared.pdf" }),
   ("b2", { user_sub := some "v", status := JobStatus.PROCESSING,
            s3_key := some "pdf/shared.pdf" })]

/-- A completion-success event carrying no `job_id`, only the shared
source key. -/
def dupKeyEvent : CallbackEvent :=
  noIdSuccessEvent "pdf/shared.pdf" "arn:sf:exec"

/-! ## Store lemmas -/

theorem getItem_updateItem_self (db : JobStore) (k : String) (f : JobRecord → JobRecord) :
    getItem (updateItem db k f) k = (getItem db k).map f := by
  induction db with
  | nil => rfl
  | cons kv rest ih =>
      obtain ⟨k0, r⟩ := kv
      by_cases h : k0 = k
      · simp [updateItem, getItem, h]
      · simp [updateItem, getItem, h, ih]

theorem getItem_updateItem_ne (db : JobStore) (k k2 : String) (f : JobRecord → JobRecord)
    (h : k2 ≠ k) : getItem (updateItem db k f) k2 = getItem db k2 := by
  induction db with
  | nil => rfl
  | cons kv rest ih =>
      obtain ⟨k0, r⟩ := kv
      by_cases h0 : k0 = k
      · subst h0
        simp [updateItem, getItem, Ne.symm h, ih]
      · simp [updateItem, getItem, h0, ih]

theorem getItem_putItem_self (db : JobStore) (k : String) (r : JobRecord) :
    getItem (putItem db k r) k = some r := by
  induction db with
  | nil => simp [putItem, getItem]
  | cons kv rest ih =>
      obtain ⟨k0, r0⟩ := kv
      by_cases h : k0 = k
      · simp [putItem, getItem, h]
      · simp [putItem, getItem, h, ih]


/-! ## C3 — `start` and the state machine -/

/-- C3: the claim says `start` on a job whose status is neither UPLOADED
nor ANALYSIS_COMPLETE (here: COMPLETED) returns an InvalidTransition
error echoing the current status and leaves the record unmodified.  In
the code the handler never inspects `status`: on a COMPLETED job it
answers 200 and rewrites the record to PROCESSING. -/
theorem C3_counterexample :
    (startProcessing (sampleDb JobStatus.COMPLETED) (some "j") (some "u") 7 8 true true).1
      = 200 ∧
    getItem (startProcessing (sampleDb JobStatus.COMPLETED) (some "j") (some "u")
        7 8 true true).2 "j"
      = some { sampleJob JobStatus.COMPLETED with
               status := JobStatus.PROCESSING, updated_at := some 7,
               processing_metadata := some ⟨some "b", some "pdf/j.pdf", 7⟩ } := by
  decide

/-- C3 (amended): `startProcessing` performs no source-state check at
all: for every existing job that passes the ownership comparison —
whatever its current status, including COMPLETED — it overwrites the
status to PROCESSING, snapshots `processing_metadata`, rewrites
`updated_at`, and returns 200.  No InvalidTransition outcome exists. -/
theorem C3_amended_start_ignores_status (db : JobStore) (jid u : String) (r : JobRecord)
    (now t2 : Nat) (hget : getItem db jid = some r) (hown : r.user_sub = some u) :
    (startProcessing db (some jid) (some u) now t2 true true).1 = 200 ∧
    getItem (startProcessing db (some jid) (some u) now t2 true true).2 jid
      = some { r with status := JobStatus.PROCESSING, updated_at := some now,
                      processing_metadata := some ⟨r.s3_bucket, r.s3_key, now⟩ } := by
  simp [startProcessing, hget, hown, startWrite, getItem_updateItem_self]

/-- C3 (amended) at a concrete input: the COMPLETED fixture job. -/
theorem C3_amended_start_ignores_status_witness :
    (startProcessing (sampleDb JobStatus.COMPLETED) (some "j") (some "u") 7 8 true true).1
      = 200 ∧
    getItem (startProcessing (sampleDb JobStatus.COMPLETED) (some "j") (some "u")
        7 8 true true).2 "j"
      = some { sampleJob JobStatus.COMPLETED with
               status := JobStatus.PROCESSING, updated_at := some 7,
               processing_metadata := some ⟨(sampleJob JobStatus.COMPLETED).s3_bucket,
                                           (sampleJob JobStatus.COMPLETED).s3_key, 7⟩ } :=
  C3_amended_start_ignores_status (sampleDb JobStatus.COMPLETED) "j" "u"
    (sampleJob JobStatus.COMPLETED) 7 8 (by decide) (by decide)

/-! ## C4 — ownership guard -/

/-- C4: the claim says get/cancel/delete/start all yield Forbidden
whenever the caller identity is absent, leaving the record untouched.
`startProcessing` guards with `if user_sub and job.get('user_sub') !=
user_sub`: an absent identity makes the conjunction falsy, the ownership
check is skipped, and the handler proceeds to mutate the job and answer
200. -/
theorem C4_counterexample :
    (startProcessing (sampleDb JobStatus.UPLOADED) (some "j") none 7 8 true true).1 = 200 ∧
    getItem (startProcessing (sampleDb JobStatus.UPLOADED) (some "j") none 7 8 true true).2 "j"
      ≠ getItem (sampleDb JobStatus.UPLOADED) "j" := by
  decide

/-- C4 (amended): a present but mismatched identity is denied with 403 by
all four triggers, with the store unchanged; an absent identity is denied
by `cancelJob` and `deleteJob` (403) and by `getJob` (401, outside the
spec's four-category taxonomy) — but `startProcessing` skips its
ownership check entirely when the identity is absent and proceeds to
mutate the job. -/
theorem C4_amended_ownership_checks (db : JobStore) (jid u : String) (r : JobRecord)
    (now t2 : Nat) (sc ok : Bool)
    (hget : getItem db jid = some r) (hmismatch : r.user_sub ≠ some u) :
    getJob db (some jid) (some u) = 403 ∧
    cancelJob db (some jid) (some u) now = (403, db) ∧
    deleteJob db (some jid) (some u) = (403, db) ∧
    startProcessing db (some jid) (some u) now t2 sc ok = (403, db) ∧
    getJob db (some jid) none = 401 ∧
    cancelJob db (some jid) none now = (403, db) ∧
    deleteJob db (some jid) none = (403, db) := by
  refine ⟨?_, ?_, ?_, ?_, ?_, ?_, ?_⟩ <;>
    simp [getJob, cancelJob, cancelCheck, deleteJob, startProcessing, hget, hmismatch]

/-- C4 (amended) at a concrete input: caller `"intruder"` against the
fixture job owned by `"u"`. -/
theorem C4_amended_ownership_checks_witness :
    getJob (sampleDb JobStatus.UPLOADED) (some "j") (some "intruder") = 403 ∧
    cancelJob (sampleDb JobStatus.UPLOADED) (some "j") (some "intruder") 7
      = (403, sampleDb JobStatus.UPLOADED) ∧
    deleteJob (sampleDb JobStatus.UPLOADED) (some "j") (some "intruder")
      = (403, sampleDb JobStatus.UPLOADED) ∧
    startProcessing (sampleDb JobStatus.UPLOADED) (some "j") (some "intruder") 7 8 true true
      = (403, sampleDb JobStatus.UPLOADED) ∧
    getJob (sampleDb JobStatus.UPLOADED) (some "j") none = 401 ∧
    cancelJob (sampleDb JobStatus.UPLOADED) (some "j") none 7
      = (403, sampleDb JobStatus.UPLOADED) ∧
    deleteJob (sampleDb JobStatus.UPLOADED) (some "j") none
      = (403, sampleDb JobStatus.UPLOADED) :=
  C4_amended_ownership_checks (sampleDb JobStatus.UPLOADED) "j" "intruder"
    (sampleJob JobStatus.UPLOADED) 7 8 true true (by decide) (by decide)

/-! ## C7 — analysis failure handling -/

/-- C7: the claim says a parse failure degrades to a size-based fallback
estimate, tagged as such, and never surfaces as an error.  In the code
the `except` branch marks the job FAILED with the exception text and
answers 500; no fallback metric of any kind is written. -/
theorem C7_counterexample :
    (analyzePDF (sampleDb JobStatus.UPLOADED) (some "j") none "EOF marker not found" 7 8).1
      = 500 ∧
    getItem (analyzePDF (sampleDb JobStatus.UPLOADED) (some "j") none
        "EOF marker not found" 7 8).2 "j"
      = some { sampleJob JobStatus.UPLOADED with
               status := JobStatus.FAILED,
               error_message := some "EOF marker not found", updated_at := some 8 } := by
  decide

/-- C7 (amended): when the download/parse step raises, `analyzePDF` moves
the job to FAILED with the exception text recorded and surfaces the
error as a 500 response; every metric attribute keeps its prior value —
there is no size-based fallback estimate and no fallback tag. -/
theorem C7_amended_parse_failure_fails_job (db : JobStore) (jid errText : String)
    (r : JobRecord) (t1 t2 : Nat) (hget : getItem db jid = some r) :
    (analyzePDF db (some jid) none errText t1 t2).1 = 500 ∧
    getItem (analyzePDF db (some jid) none errText t1 t2).2 jid
      = some { r with status := JobStatus.FAILED, error_message := some errText,
                      updated_at := some t2 } := by
  simp [analyzePDF, hget, getItem_updateItem_self]

/-- C7 (amended) at a concrete input: the fixture job with a parse
error. -/
theorem C7_amended_parse_failure_fails_job_witness :
    (analyzePDF (sampleDb JobStatus.UPLOADED) (some "j") none "EOF marker not found" 7 8).1
      = 500 ∧
    getItem (analyzePDF (sampleDb JobStatus.UPLOADED) (some "j") none
        "EOF marker not found" 7 8).2 "j"
      = some { sampleJob JobStatus.UPLOADED with
               status := JobStatus.FAILED,
               error_message := some "EOF marker not found", updated_at := some 8 } :=
  C7_amended_parse_failure_fails_job (sampleDb JobStatus.UPLOADED) "j" "EOF marker not found"
    (sampleJob JobStatus.UPLOADED) 7 8 (by decide)

/-! ## C1 — atomicity of the cancel / completion-callback race -/

/-- C1: the claim says each status change is an atomic conditional update
whose precondition is the expected current state, so in a cancel versus
completion race on a PROCESSING job the loser is rejected and reported
as InvalidTransition/no-op.  In the code neither write carries a
`ConditionExpression`: after the callback has committed COMPLETED,
cancel's unconditional write still lands on top (final status CANCELLED)
and cancel answers 200. -/
theorem C1_counterexample :
    ((getItem (sfnCallback (sampleDb JobStatus.PROCESSING) successEvent 9).2 "j").map
        JobRecord.status = some JobStatus.COMPLETED) ∧
    (cancelRaceCallback (sampleDb JobStatus.PROCESSING) (some "j") (some "u")
        successEvent 9 11).1 = 200 ∧
    ((getItem (cancelRaceCallback (sampleDb JobStatus.PROCESSING) (some "j") (some "u")
          successEvent 9 11).2.2 "j").map JobRecord.status = some JobStatus.CANCELLED) := by
  decide

/-- C1 (amended): the mutating triggers issue a read followed by an
unconditional write with no store-side precondition; in the interleaving
where cancel's read passes its checks on a PROCESSING job, the callback
then commits COMPLETED, and cancel's write runs last, the race resolves
last-writer-wins: cancel reports 200 and its CANCELLED overwrites the
winner's COMPLETED. -/
theorem C1_amended_race_last_writer_wins (db : JobStore) (jid arn p0 u : String)
    (r : JobRecord) (tCb tCancel : Nat)
    (hget : getItem db jid = some r) (hown : r.user_sub = some u)
    (hst : r.status = JobStatus.PROCESSING) :
    ((getItem (sfnCallback db (jobSuccessEvent jid arn p0) tCb).2 jid).map
        JobRecord.status = some JobStatus.COMPLETED) ∧
    (cancelRaceCallback db (some jid) (some u) (jobSuccessEvent jid arn p0)
        tCb tCancel).1 = 200 ∧
    ((getItem (cancelRaceCallback db (some jid) (some u) (jobSuccessEvent jid arn p0)
          tCb tCancel).2.2 jid).map JobRecord.status = some JobStatus.CANCELLED) := by
  have hcheck : cancelCheck db (some jid) (some u) = Except.ok jid := by
    simp [cancelCheck, hget, hown, hst, terminalStatuses]
  refine ⟨?_, ?_, ?_⟩ <;>
    simp [cancelRaceCallback, hcheck, sfnCallback, jobSuccessEvent, resolveJobId,
          callbackApply, hget, getItem_updateItem_self, cancelWrite,
          callbackSuccessMutation]

/-- C1 (amended) at a concrete input: the fixture PROCESSING job. -/
theorem C1_amended_race_last_writer_wins_witness :
    ((getItem (sfnCallback (sampleDb JobStatus.PROCESSING)
          (jobSuccessEvent "j" "arn:sf:exec" "ok") 9).2 "j").map
        JobRecord.status = some JobStatus.COMPLETED) ∧
    (cancelRaceCallback (sampleDb JobStatus.PROCESSING) (some "j") (some "u")
        (jobSuccessEvent "j" "arn:sf:exec" "ok") 9 11).1 = 200 ∧
    ((getItem (cancelRaceCallback (sampleDb JobStatus.PROCESSING) (some "j") (some "u")
          (jobSuccessEvent "j" "arn:sf:exec" "ok") 9 11).2.2 "j").map
        JobRecord.status = some JobStatus.CANCELLED) :=
  C1_amended_race_last_writer_wins (sampleDb JobStatus.PROCESSING) "j" "arn:sf:exec" "ok" "u"
    (sampleJob JobStatus.PROCESSING) 9 11 (by decide) (by decide) (by decide)

/-! ## C2 — idempotency of the completion callback -/

/-- C2: the claim says a completion callback for a job already in a
terminal state leaves the record unchanged, including `updated_at`.  In
the code the success branch updates unconditionally: redelivery to an
already-COMPLETED job rewrites `updated_at` (5 becomes 9), and a success
signal for a CANCELLED job overwrites the terminal status with
COMPLETED. -/
theorem C2_counterexample :
    (sfnCallback [("j", { sampleJob JobStatus.COMPLETED with
        processed_s3_key := some "result/COMPLIANT_j.pdf" })] successEvent 9).1 = 200 ∧
    getItem (sfnCallback [("j", { sampleJob JobStatus.COMPLETED with
          processed_s3_key := some "result/COMPLIANT_j.pdf" })] successEvent 9).2 "j"
      = some { sampleJob JobStatus.COMPLETED with
               processed_s3_key := some "result/COMPLIANT_j.pdf", updated_at := some 9 } ∧
    (sampleJob JobStatus.COMPLETED).updated_at ≠ some 9 ∧
    ((getItem (sfnCallback (sampleDb JobStatus.CANCELLED) successEvent 9).2 "j").map
        JobRecord.status = some JobStatus.COMPLETED) := by
  decide

/-- C2 (amended): the completion-success callback applies its update
unconditionally, whatever the job's current status (terminal ones
included): it always sets status COMPLETED, rewrites `updated_at` to the
delivery time, and answers 200; replaying the same success signal leaves
status and `processed_s3_key` at the same values but rewrites
`updated_at` again. -/
theorem C2_amended_callback_overwrites_terminal (db : JobStore) (jid arn p0 : String)
    (r : JobRecord) (now now2 : Nat) (hget : getItem db jid = some r) :
    (sfnCallback db (jobSuccessEvent jid arn p0) now).1 = 200 ∧
    getItem (sfnCallback db (jobSuccessEvent jid arn p0) now).2 jid
      = some (callbackSuccessMutation (processedFileKey (some p0)) now r) ∧
    (sfnCallback (sfnCallback db (jobSuccessEvent jid arn p0) now).2
        (jobSuccessEvent jid arn p0) now2).1 = 200 ∧
    getItem (sfnCallback (sfnCallback db (jobSuccessEvent jid arn p0) now).2
          (jobSuccessEvent jid arn p0) now2).2 jid
      = some { callbackSuccessMutation (processedFileKey (some p0)) now r with
               updated_at := some now2 } := by
  have hmut : ∀ (pk : Option String) (t t2 : Nat) (x : JobRecord),
      callbackSuccessMutation pk t2 (callbackSuccessMutation pk t x)
        = { callbackSuccessMutation pk t x with updated_at := some t2 } := by
    intro pk t t2 x
    cases pk <;> rfl
  refine ⟨?_, ?_, ?_, ?_⟩ <;>
    simp [sfnCallback, jobSuccessEvent, resolveJobId, callbackApply, hget,
          getItem_updateItem_self, hmut]

/-- C2 (amended) at a concrete input: redelivery of the marker-bearing
success event to the already-COMPLETED fixture job. -/
theorem C2_amended_callback_overwrites_terminal_witness :
    (sfnCallback (sampleDb JobStatus.COMPLETED)
        (jobSuccessEvent "j" "arn:sf:exec" "Filename : COMPLIANT_j.pdf | ok") 9).1 = 200 ∧
    getItem (sfnCallback (sampleDb JobStatus.COMPLETED)
          (jobSuccessEvent "j" "arn:sf:exec" "Filename : COMPLIANT_j.pdf | ok") 9).2 "j"
      = some (callbackSuccessMutation
          (processedFileKey (some "Filename : COMPLIANT_j.pdf | ok")) 9
          (sampleJob JobStatus.COMPLETED)) ∧
    (sfnCallback (sfnCallback (sampleDb JobStatus.COMPLETED)
          (jobSuccessEvent "j" "arn:sf:exec" "Filename : COMPLIANT_j.pdf | ok") 9).2
        (jobSuccessEvent "j" "arn:sf:exec" "Filename : COMPLIANT_j.pdf | ok") 11).1 = 200 ∧
    getItem (sfnCallback (sfnCallback (sampleDb JobStatus.COMPLETED)
            (jobSuccessEvent "j" "arn:sf:exec" "Filename : COMPLIANT_j.pdf | ok") 9).2
          (jobSuccessEvent "j" "arn:sf:exec" "Filename : COMPLIANT_j.pdf | ok") 11).2 "j"
      = some { callbackSuccessMutation
                 (processedFileKey (some "Filename : COMPLIANT_j.pdf | ok")) 9
                 (sampleJob JobStatus.COMPLETED) with updated_at := some 11 } :=
  C2_amended_callback_overwrites_terminal (sampleDb JobStatus.COMPLETED) "j" "arn:sf:exec"
    "Filename : COMPLIANT_j.pdf | ok" (sampleJob JobStatus.COMPLETED) 9 11 (by decide)

/-! ## C5 — fallback resolution by source key -/

/-- C5: the claim says the fallback lookup accepts only a unique match
and fails when two or more jobs match.  In the code the scan runs with
`Limit=1` and its first hit is accepted: with two distinct jobs both
holding the signal's source key, the first is resolved and mutated and
the handler answers 200 instead of failing. -/
theorem C5_counterexample :
    (getItem dupDb "a1").map JobRecord.s3_key = some (some "pdf/shared.pdf") ∧
    (getItem dupDb "b2").map JobRecord.s3_key = some (some "pdf/shared.pdf") ∧
    "a1" ≠ "b2" ∧
    (sfnCallback dupDb dupKeyEvent 9).1 = 200 ∧
    ((getItem (sfnCallback dupDb dupKeyEvent 9).2 "a1").map JobRecord.status
       = some JobStatus.COMPLETED) := by
  decide

/-- C5 (amended): when the signal has no job id and the derived-id point
lookup misses, the fallback scan examines only the first record of the
table (`Limit=1` bounds the items examined before filtering): if that
record holds the source key it is accepted and mutated — with no
uniqueness check against the rest of the table — and otherwise
resolution fails with 404 and no record is modified, even when a unique
match exists further down. -/
theorem C5_amended_scan_first_item (k0 k arn : String) (r0 : JobRecord) (rest : JobStore)
    (now : Nat) (hderived : getItem ((k0, r0) :: rest) (derivedJobId k) = none) :
    (r0.s3_key = some k →
      (sfnCallback ((k0, r0) :: rest) (noIdSuccessEvent k arn) now).1 = 200 ∧
      ((getItem (sfnCallback ((k0, r0) :: rest) (noIdSuccessEvent k arn) now).2 k0).map
          JobRecord.status = some JobStatus.COMPLETED)) ∧
    (r0.s3_key ≠ some k →
      sfnCallback ((k0, r0) :: rest) (noIdSuccessEvent k arn) now
        = (404, (k0, r0) :: rest)) := by
  constructor
  · intro hmatch
    have hres : resolveJobId ((k0, r0) :: rest) none (some k) = Except.ok k0 := by
      simp [resolveJobId, hderived, scanLimit1, hmatch]
    constructor
    · simp [sfnCallback, noIdSuccessEvent, hres, callbackApply]
    · simp [sfnCallback, noIdSuccessEvent, hres, callbackApply, getItem_updateItem_self,
            getItem, callbackSuccessMutation, processedFileKey]
  · intro hmiss
    have hres : resolveJobId ((k0, r0) :: rest) none (some k) = Except.error 404 := by
      simp [resolveJobId, hderived, scanLimit1, hmiss]
    simp [sfnCallback, noIdSuccessEvent, hres]

/-- C5 (amended) at a concrete input: the two-job fixture table whose
records share one source key. -/
theorem C5_amended_scan_first_item_witness :
    (({ user_sub := some "u", status := JobStatus.PROCESSING,
        s3_key := some "pdf/shared.pdf" } : JobRecord).s3_key = some "pdf/shared.pdf" →
      (sfnCallback dupDb (noIdSuccessEvent "pdf/shared.pdf" "arn:sf:exec") 9).1 = 200 ∧
      ((getItem (sfnCallback dupDb
            (noIdSuccessEvent "pdf/shared.pdf" "arn:sf:exec") 9).2 "a1").map
          JobRecord.status = some JobStatus.COMPLETED)) ∧
    (({ user_sub := some "u", status := JobStatus.PROCESSING,
        s3_key := some "pdf/shared.pdf" } : JobRecord).s3_key ≠ some "pdf/shared.pdf" →
      sfnCallback dupDb (noIdSuccessEvent "pdf/shared.pdf" "arn:sf:exec") 9
        = (404, dupDb)) :=
  C5_amended_scan_first_item "a1" "pdf/shared.pdf" "arn:sf:exec"
    { user_sub := some "u", status := JobStatus.PROCESSING,
      s3_key := some "pdf/shared.pdf" }
    [("b2", { user_sub := some "v", status := JobStatus.PROCESSING,
              s3_key := some "pdf/shared.pdf" })] 9 (by decide)

/-! ## C6 — result location versus COMPLETED -/

/-- C6: the claim states the invariant that `processed_s3_key` is present
if and only if status is COMPLETED.  The degraded success path refutes
the invariant in the code: a success signal whose result text lacks the
marker still produces COMPLETED but leaves `processed_s3_key` absent. -/
theorem C6_counterexample :
    extractFilename "Stage finished | ok" = none ∧
    (sfnCallback (sampleDb JobStatus.PROCESSING) successEventNoMarker 9).1 = 200 ∧
    getItem (sfnCallback (sampleDb JobStatus.PROCESSING) successEventNoMarker 9).2 "j"
      = some { sampleJob JobStatus.PROCESSING with
               status := JobStatus.COMPLETED, updated_at := some 9 } ∧
    ({ sampleJob JobStatus.PROCESSING with
       status := JobStatus.COMPLETED, updated_at := some 9 } : JobRecord).processed_s3_key
      = none := by
  decide

/-- C6 (amended): the completion-success callback always sets status
COMPLETED, and sets `processed_s3_key` exactly when the `Filename : …`
marker is extractable from the result text, leaving it at its prior
value otherwise — so COMPLETED does not imply a present result
location. -/
theorem C6_amended_marker_drives_result_location (db : JobStore) (jid arn p0 : String)
    (r : JobRecord) (now : Nat) (hget : getItem db jid = some r) :
    ((getItem (sfnCallback db (jobSuccessEvent jid arn p0) now).2 jid).map
        JobRecord.status = some JobStatus.COMPLETED) ∧
    ((getItem (sfnCallback db (jobSuccessEvent jid arn p0) now).2 jid).map
        JobRecord.processed_s3_key
      = some (match extractFilename p0 with
              | some f => some ("result/" ++ f)
              | none => r.processed_s3_key)) := by
  cases hf : extractFilename p0 <;>
    refine ⟨?_, ?_⟩ <;>
      simp [sfnCallback, jobSuccessEvent, resolveJobId, callbackApply, hget,
            getItem_updateItem_self, callbackSuccessMutation, processedFileKey, hf]

/-- C6 (amended) at a concrete input: the marker-less success event on
the fixture PROCESSING job leaves the result location unset. -/
theorem C6_amended_marker_drives_result_location_witness :
    ((getItem (sfnCallback (sampleDb JobStatus.PROCESSING)
          (jobSuccessEvent "j" "arn:sf:exec" "Stage finished | ok") 9).2 "j").map
        JobRecord.status = some JobStatus.COMPLETED) ∧
    ((getItem (sfnCallback (sampleDb JobStatus.PROCESSING)
          (jobSuccessEvent "j" "arn:sf:exec" "Stage finished | ok") 9).2 "j").map
        JobRecord.processed_s3_key = some none) := by
  have h := C6_amended_marker_drives_result_location (sampleDb JobStatus.PROCESSING) "j"
    "arn:sf:exec" "Stage finished | ok" (sampleJob JobStatus.PROCESSING) 9 (by decide)
  exact ⟨h.1, h.2.trans (by decide)⟩

/-! ## C8 — complexity bucketing -/

/-- C8: the claim says complexity is determined by bucketing the average
elements-per-page against two thresholds.  In the code
`avg_elements_per_page` is the constant 30 for every document (so a
"5-page document averaging 40 elements per page" cannot arise), while
complexity is bucketed from the page count: the two scenario documents
store the same average (30) yet land in different buckets, so no
function of the average yields the code's complexity. -/
theorem C8_counterexample :
    ((getItem (analyzePDF (sampleDb JobStatus.UPLOADED) (some "j") (some 5) "" 7 8).2
        "j").map JobRecord.avg_elements_per_page = some (some 30)) ∧
    ((getItem (analyzePDF (sampleDb JobStatus.UPLOADED) (some "j") (some 5) "" 7 8).2
        "j").map JobRecord.complexity = some (some Complexity.simple)) ∧
    ((getItem (analyzePDF (sampleDb JobStatus.UPLOADED) (some "j") (some 60) "" 7 8).2
        "j").map JobRecord.avg_elements_per_page = some (some 30)) ∧
    ((getItem (analyzePDF (sampleDb JobStatus.UPLOADED) (some "j") (some 60) "" 7 8).2
        "j").map JobRecord.complexity = some (some Complexity.complex)) ∧
    ¬ ∃ f : Nat → Complexity, ∀ p : Nat, complexityOf p = f avg_elements_per_page := by
  refine ⟨by decide, by decide, by decide, by decide, ?_⟩
  rintro ⟨f, hf⟩
  have h : Complexity.simple = Complexity.complex := by
    calc Complexity.simple = complexityOf 5 := by decide
      _ = f avg_elements_per_page := hf 5
      _ = complexityOf 60 := (hf 60).symm
      _ = Complexity.complex := by decide
  exact absurd h (by decide)

/-- C8 (amended): complexity is bucketed from the page count against the
two fixed thresholds 10 and 50 into the ordered scale
simple/moderate/complex, while the stored `avg_elements_per_page` is the
constant 30; the 5-page scenario document lands in the lowest bucket and
the 60-page one in the top bucket. -/
theorem C8_amended_complexity_from_pages (db : JobStore) (jid errText : String)
    (r : JobRecord) (p t1 t2 : Nat) (hget : getItem db jid = some r) :
    ((getItem (analyzePDF db (some jid) (some p) errText t1 t2).2 jid).map
        JobRecord.complexity = some (some (complexityOf p))) ∧
    ((getItem (analyzePDF db (some jid) (some p) errText t1 t2).2 jid).map
        JobRecord.avg_elements_per_page = some (some avg_elements_per_page)) ∧
    (complexityOf p = Complexity.simple ↔ p < 10) ∧
    (complexityOf p = Complexity.moderate ↔ 10 ≤ p ∧ p < 50) ∧
    (complexityOf p = Complexity.complex ↔ 50 ≤ p) := by
  refine ⟨?_, ?_, ?_, ?_, ?_⟩
  · simp [analyzePDF, hget, getItem_updateItem_self, analysisMutation]
  · simp [analyzePDF, hget, getItem_updateItem_self, analysisMutation]
  · unfold complexityOf
    split_ifs <;> simp_all
  · unfold complexityOf
    split_ifs <;> simp_all
  · unfold complexityOf
    split_ifs <;> simp_all
    omega

/-- C8 (amended) at a concrete input: the 5-page scenario document. -/
theorem C8_amended_complexity_from_pages_witness :
    ((getItem (analyzePDF (sampleDb JobStatus.UPLOADED) (some "j") (some 5) "" 7 8).2
        "j").map JobRecord.complexity = some (some (complexityOf 5))) ∧
    ((getItem (analyzePDF (sampleDb JobStatus.UPLOADED) (some "j") (some 5) "" 7 8).2
        "j").map JobRecord.avg_elements_per_page = some (some avg_elements_per_page)) ∧
    (complexityOf 5 = Complexity.simple ↔ 5 < 10) ∧
    (complexityOf 5 = Complexity.moderate ↔ 10 ≤ 5 ∧ 5 < 50) ∧
    (complexityOf 5 = Complexity.complex ↔ 50 ≤ 5) :=
  C8_amended_complexity_from_pages (sampleDb JobStatus.UPLOADED) "j" ""
    (sampleJob JobStatus.UPLOADED) 5 7 8 (by decide)

/-! ## C9 — cost-percentage formula -/

/-- C9: the claim says the stored cost percentage is
`p*10/25000*100` (rounded to two decimals).  In the code
`estimated_transactions = (p*30)//10 = 3·p`, so a 5-page document stores
`15/25000*100 = 0.06`, while the claim's formula gives `0.2`. -/
theorem C9_counterexample :
    (analysisMutation 5 8 (sampleJob JobStatus.ANALYZING)).estimated_cost_percentage
      = some (estimatedCostPercentage 5) ∧
    estimatedCostPercentage 5 = 3 / 50 ∧
    (5 : ℚ) * 10 / 25000 * 100 = 1 / 5 ∧
    (3 / 50 : ℚ) ≠ 1 / 5 := by
  refine ⟨rfl, ?_, by norm_num, by norm_num⟩
  norm_num [estimatedCostPercentage, estimated_transactions, estimated_elements, round2]

/-- C9 (amended): the stored `estimated_cost_percentage` equals
`estimated_transactions / 25000 * 100` rounded to two decimals, where
`estimated_transactions = (p*30) // 10 = 3·p` — that is,
`p*3/25000*100`, not `p*10/25000*100`. -/
theorem C9_amended_cost_formula (p t2 : Nat) (r : JobRecord) :
    estimated_transactions p = 3 * p ∧
    estimatedCostPercentage p = round2 (((3 * p : Nat) : ℚ) / 25000 * 100) ∧
    (analysisMutation p t2 r).estimated_cost_percentage
      = some (estimatedCostPercentage p) := by
  have h : estimated_transactions p = 3 * p := by
    unfold estimated_transactions estimated_elements
    omega
  refine ⟨h, ?_, rfl⟩
  unfold estimatedCostPercentage
  rw [h]

/-! ## C10 — create overwrites existing records -/

/-- C10: for a create request whose `job_id` already exists, the handler
runs an unconditional `put_item`: the whole record is replaced by a
fresh one — status back to UPLOADED, owner set from the request,
timestamps and expiry recomputed — and the response is 200; no
already-exists failure mode exists in the handler. -/
theorem C10_create_overwrites_existing (db : JobStore) (jid u fn k pdfBucketEnv : String)
    (em bucket : Option String) (sz now : Nat) (rOld : JobRecord)
    (_hget : getItem db jid = some rOld) :
    (createJob db (some jid) (some u) em (some fn) (some k) bucket pdfBucketEnv sz now).1
      = 200 ∧
    getItem (createJob db (some jid) (some u) em (some fn) (some k) bucket
        pdfBucketEnv sz now).2 jid
      = some { user_sub := some u, status := JobStatus.UPLOADED, file_name := some fn,
               file_size_mb := some (round2 ((sz : ℚ) / 1048576)),
               file_size_bytes := some sz, s3_key := some k,
               s3_bucket := some (bucket.getD pdfBucketEnv),
               created_at := some now, updated_at := some now,
               expires_at := some (now + 7 * 86400), user_email := em } := by
  exact ⟨rfl, by simp [createJob, getItem_putItem_self]⟩

/-- C10 at a concrete input: the fixture job (COMPLETED, owned by `"u"`)
is silently replaced by a fresh UPLOADED record owned by `"other"`. -/
theorem C10_create_overwrites_existing_witness :
    (createJob (sampleDb JobStatus.COMPLETED) (some "j") (some "other") none
        (some "j.pdf") (some "pdf/j.pdf") none "env-bucket" 1000 42).1 = 200 ∧
    getItem (createJob (sampleDb JobStatus.COMPLETED) (some "j") (some "other") none
        (some "j.pdf") (some "pdf/j.pdf") none "env-bucket" 1000 42).2 "j"
      = some { user_sub := some "other", status := JobStatus.UPLOADED,
               file_name := some "j.pdf",
               file_size_mb := some (round2 (((1000 : Nat) : ℚ) / 1048576)),
               file_size_bytes := some 1000, s3_key := some "pdf/j.pdf",
               s3_bucket := some "env-bucket",
               created_at := some 42, updated_at := some 42,
               expires_at := some (42 + 7 * 86400), user_email := none } :=
  C10_create_overwrites_existing (sampleDb JobStatus.COMPLETED) "j" "other" "j.pdf"
    "pdf/j.pdf" "env-bucket" none none 1000 42 (sampleJob JobStatus.COMPLETED) (by decide)
